import Mathlib

/-!
Shallow embedding of the real-time chat layer of the FreeAPI backend
(`chat/consumers.py`, `chat/models.py`, `accounts/models.py`), together
with theorems settling the specification claims about it.

Conventions of the embedding:
* machine integers and timestamps are `Int` (seconds since the epoch);
* Django ORM rows become Lean structures, tables become lists;
* fallible operations return `Option`;
* the many-to-many `read_by` relation is the per-message list of user ids;
* wall-clock reads (`timezone.now()`) become explicit `now : Int` arguments.
-/

namespace FreeAPIChat

abbrev UserId := Nat
abbrev ChatId := Nat
abbrev MsgId := Nat

/-- Embedding of `chat.models.Message` (the fields the chat layer touches). -/
structure MessageRec where
  id : MsgId
  chat : ChatId
  sender : UserId
  message_type : String
  content : String
  attachment : Option String
  status : String
  is_deleted : Bool
  read_by : List UserId
  read_at : Option Int
  delivered_at : Option Int
  created_at : Int
deriving Repr, DecidableEq

/-- Embedding of `Message.mark_as_read` (`chat/models.py` lines 152-157):
`read_by.add(user)` (set add: no duplicate), then unconditionally
`status = "read"` and `read_at = timezone.now()`. -/
def MessageRec.mark_as_read (m : MessageRec) (user : UserId) (now : Int) : MessageRec :=
  { m with
    read_by := if user ∈ m.read_by then m.read_by else m.read_by ++ [user]
    status := "read"
    read_at := some now }

/-- Embedding of `Message.mark_as_delivered` (`chat/models.py` lines 159-163):
unconditionally `status = "delivered"` and `delivered_at = timezone.now()`. -/
def MessageRec.mark_as_delivered (m : MessageRec) (now : Int) : MessageRec :=
  { m with
    status := "delivered"
    delivered_at := some now }

/-- One status-mutating operation on a message, with its wall-clock instant. -/
inductive StatusOp where
  | deliver (now : Int)
  | read (user : UserId) (now : Int)
deriving Repr, DecidableEq

/-- Apply one status operation (dispatch to the two model methods). -/
def MessageRec.applyOp (m : MessageRec) : StatusOp → MessageRec
  | .deliver now => m.mark_as_delivered now
  | .read user now => m.mark_as_read user now

/-- Run a sequence of status operations. -/
def MessageRec.runOps (m : MessageRec) (ops : List StatusOp) : MessageRec :=
  ops.foldl MessageRec.applyOp m

/-- The status value each operation writes. -/
def StatusOp.targetStatus : StatusOp → String
  | .deliver _ => "delivered"
  | .read _ _ => "read"

/-- A concrete freshly sent message used in counterexamples. -/
def msgSent : MessageRec :=
  { id := 1, chat := 1, sender := 3, message_type := "text", content := "hi"
    attachment := none, status := "sent", is_deleted := false
    read_by := [], read_at := none, delivered_at := none, created_at := 0 }

/-!
## Presence formatting (`accounts/models.py`, `User.formatted_last_seen`)

Python `datetime` values are embedded as a structure carrying both the
epoch-second value (used for subtraction and ordering) and the local
calendar fields (used by `strftime`).  Python `timedelta` values are
embedded normalized exactly as CPython stores them: a `days` component
(floor division) and a `seconds` component in `[0, 86400)`.
-/

/-- Embedding of a Python `datetime`: epoch seconds plus calendar fields. -/
structure PyDateTime where
  epoch : Int
  year : Nat
  month : Nat
  day : Nat
  hour : Nat
  minute : Nat
deriving Repr, DecidableEq

/-- Embedding of a Python `timedelta`, normalized like CPython:
`days` may be negative, `seconds` always lies in `[0, 86400)`. -/
structure PyTimedelta where
  days : Int
  seconds : Int
deriving Repr, DecidableEq

/-- Build a normalized `timedelta` from a total number of seconds,
as CPython does (floor division by 86400). -/
def PyTimedelta.ofSeconds (total : Int) : PyTimedelta :=
  { days := Int.fdiv total 86400
    seconds := total - 86400 * Int.fdiv total 86400 }

/-- Total seconds represented by a `timedelta`. -/
def PyTimedelta.total (t : PyTimedelta) : Int :=
  t.days * 86400 + t.seconds

/-- Python comparison of `timedelta` values compares the represented totals. -/
def PyTimedelta.lt (a b : PyTimedelta) : Bool :=
  a.total < b.total

/-- Python `datetime` subtraction: `now - last_seen` as a normalized `timedelta`. -/
def PyDateTime.sub (a b : PyDateTime) : PyTimedelta :=
  PyTimedelta.ofSeconds (a.epoch - b.epoch)

/-- Zero-padded two-digit decimal rendering (`%I`, `%M`, `%d`). -/
def pad2 (n : Nat) : String :=
  if n < 10 then "0" ++ toString n else toString n

/-- Rendering of `%I`: 12-hour clock hour, 12 for midnight and noon. -/
def hour12 (h : Nat) : Nat :=
  if h % 12 = 0 then 12 else h % 12

/-- Rendering of `%p`: AM before noon, PM from noon on. -/
def ampm (h : Nat) : String :=
  if h < 12 then "AM" else "PM"

/-- Embedding of `strftime("%I:%M %p")` on the embedded datetime. -/
def strftimeClock (t : PyDateTime) : String :=
  pad2 (hour12 t.hour) ++ ":" ++ pad2 t.minute ++ " " ++ ampm t.hour

/-- Rendering of `%b`: abbreviated month name. -/
def monthAbbrev : Nat → String
  | 1 => "Jan" | 2 => "Feb" | 3 => "Mar" | 4 => "Apr"
  | 5 => "May" | 6 => "Jun" | 7 => "Jul" | 8 => "Aug"
  | 9 => "Sep" | 10 => "Oct" | 11 => "Nov" | 12 => "Dec"
  | _ => ""

/-- Embedding of `strftime("%b %d, %Y at %I:%M %p")` on the embedded datetime. -/
def strftimeDate (t : PyDateTime) : String :=
  monthAbbrev t.month ++ " " ++ pad2 t.day ++ ", " ++ toString t.year
    ++ " at " ++ strftimeClock t

/-- Embedding of `User.formatted_last_seen` (`accounts/models.py` lines 100-117):
the branch guards are `timedelta` comparisons against `timedelta(minutes=1)`,
`timedelta(hours=1)`, `timedelta(hours=24)`, `timedelta(days=2)`, and the
minutes branch renders `int(delta.seconds / 60)` from the normalized
seconds component. -/
def formatted_last_seen (last_seen : Option PyDateTime) (now : PyDateTime) : String :=
  match last_seen with
  | none => "last seen recently"
  | some ls =>
    let delta := now.sub ls
    if delta.lt (PyTimedelta.ofSeconds 60) then
      "online just now"
    else if delta.lt (PyTimedelta.ofSeconds 3600) then
      "last seen " ++ toString (delta.seconds.toNat / 60) ++ " minutes ago"
    else if delta.lt (PyTimedelta.ofSeconds 86400) then
      "last seen today at " ++ strftimeClock ls
    else if delta.lt (PyTimedelta.ofSeconds 172800) then
      "last seen yesterday at " ++ strftimeClock ls
    else
      "last seen on " ++ strftimeDate ls

/-!
## The WebSocket consumer (`chat/consumers.py`)

`ChatConsumer` state (`self.user`, `self.chat_id`, `self.group_name`)
becomes an explicit record; database tables become lists inside `Db`;
channel-layer calls, socket sends, closes and logger calls become an
explicit `Effect` trace.
-/

/-- Embedding of `accounts.models.User` (the fields the chat layer touches). -/
structure UserRec where
  id : UserId
  username : String
  email : String
  is_authenticated : Bool
  is_online : Bool
  last_seen : Option Int
  status_message : String
deriving Repr, DecidableEq

/-- Embedding of `chat.models.Chat` (the fields the consumer touches). -/
structure ChatRec where
  id : ChatId
  chat_type : String
  last_message : Option MsgId
deriving Repr, DecidableEq

/-- Embedding of `chat.models.Participant` (the fields the consumer touches). -/
structure ParticipantRec where
  chat : ChatId
  user : UserId
deriving Repr, DecidableEq

/-- The database tables the consumer reads and writes.  `next_id` models
the allocator of fresh primary keys. -/
structure Db where
  chats : List ChatRec
  participants : List ParticipantRec
  messages : List MessageRec
  users : List UserRec
  next_id : Nat
deriving Repr, DecidableEq

/-- Outbound JSON payloads built by the consumer, with their exact fields. -/
inductive Payload where
  | messageReceive (chat_id : ChatId) (message_id : MsgId) (sender : String)
      (sender_id : UserId) (content : String) (message_type : String)
      (status : String) (created_at : Int)
  | messageRead (chat_id : ChatId) (message_id : MsgId) (reader_id : UserId)
      (reader_username : String) (read_at : Int)
  | statusEvent (event_type : String) (user_id : UserId) (chat_id : Option ChatId)
      (message_id : Option MsgId) (timestamp : Int)
  | typingEvent (username : String) (user_id : UserId) (is_typing : Bool)
      (chat_id : Option ChatId)
  | errorMsg (message : String)
deriving Repr, DecidableEq

/-- Observable actions of the consumer: channel-layer calls, the socket
accept/close, direct sends to the client, and logger output. -/
inductive Effect where
  | groupAdd (group : String)
  | groupDiscard (group : String)
  | acceptConn
  | closeConn (code : Nat)
  | groupSend (group : String) (payload : Payload)
  | sendJson (payload : Payload)
  | logError (context : String)
deriving Repr, DecidableEq

/-- The consumer's mutable instance fields, as set in `__init__` and
mutated during `connect`. -/
structure ConsState where
  user : Option UserRec
  chat_id : Option ChatId
  group_name : Option String
deriving Repr, DecidableEq

/-- The consumer fields of a successfully connected (bound) consumer. -/
structure Bound where
  user : UserRec
  chat_id : ChatId
  group_name : String
deriving Repr, DecidableEq

/-- Embedding of `Chat.objects.get(id=...)` as a list lookup. -/
def find_chat (db : Db) (cid : ChatId) : Option ChatRec :=
  db.chats.find? (fun c => c.id = cid)

/-- Embedding of `Message.objects.get(id=...)` as a list lookup — note: over the whole
`Message` table, with no filter on the chat. -/
def find_message (db : Db) (mid : MsgId) : Option MessageRec :=
  db.messages.find? (fun m => m.id = mid)

/-- The lookup of `get_or_create_private_chat` (`chat/consumers.py`
lines 192-197): first `Chat` of type `private` having membership rows
for both user ids. -/
def find_private_chat (db : Db) (u1 u2 : UserId) : Option ChatRec :=
  db.chats.find? (fun c =>
    c.chat_type = "private"
      ∧ db.participants.any (fun p => p.chat = c.id ∧ p.user = u1)
      ∧ db.participants.any (fun p => p.chat = c.id ∧ p.user = u2))

/-- Embedding of `ChatConsumer.get_or_create_private_chat`
(`chat/consumers.py` lines 187-209), executed alone (no concurrent
transaction).  `fault` models an exception raised by the database inside
the `transaction.atomic` block: the transaction rolls back and the
`except` branch returns `None`. -/
def get_or_create_private_chat (db : Db) (fault : Bool) (u1 u2 : UserId) :
    Db × Option ChatId :=
  if fault then (db, none)
  else
    match find_private_chat db u1 u2 with
    | some c => (db, some c.id)
    | none =>
      let c : ChatRec := { id := db.next_id, chat_type := "private", last_message := none }
      ({ db with
          chats := db.chats ++ [c]
          participants := db.participants ++ [⟨c.id, u1⟩, ⟨c.id, u2⟩]
          next_id := db.next_id + 1 },
        some c.id)

/-- Embedding of `ChatConsumer.set_user_status` (`chat/consumers.py`
lines 246-256): set `is_online` and stamp `last_seen` on the user row,
doing nothing when the user id matches no row. -/
def set_user_status (db : Db) (uid : UserId) (online : Bool) (now : Int) : Db :=
  { db with
    users := db.users.map (fun u =>
      if u.id = uid then { u with is_online := online, last_seen := some now } else u) }

/-- Embedding of `ChatConsumer.broadcast_status` (`chat/consumers.py`
lines 153-168): returns without publishing when `group_name` is unset,
otherwise publishes one status payload to the bound group. -/
def broadcast_status (st : ConsState) (event_type : String) (uid : UserId)
    (mid : Option MsgId) (now : Int) : List Effect :=
  match st.group_name with
  | none => []
  | some g => [.groupSend g (.statusEvent event_type uid st.chat_id mid now)]

/-- Embedding of `ChatConsumer.connect` (`chat/consumers.py` lines 26-58).
`scope_user` is `self.scope.get("user")`; `target` is the raw
`user_id` URL kwarg; `uuid_parse` models `uuid.UUID(...)`, returning
`none` on the `TypeError`/`ValueError` it raises; `fault` is the
database-fault flag of `get_or_create_private_chat`. -/
def connect (db : Db) (scope_user : Option UserRec) (target : Option String)
    (uuid_parse : String → Option UserId) (fault : Bool) (now : Int) :
    ConsState × Db × List Effect :=
  match scope_user with
  | none => (⟨none, none, none⟩, db, [.closeConn 4001])
  | some u =>
    if u.is_authenticated = false then
      (⟨none, none, none⟩, db, [.closeConn 4001])
    else
      match target.bind uuid_parse with
      | none => (⟨some u, none, none⟩, db, [.closeConn 4002])
      | some tid =>
        match get_or_create_private_chat db fault u.id tid with
        | (db1, none) => (⟨some u, none, none⟩, db1, [.closeConn 4003])
        | (db1, some cid) =>
          let g := "chat_" ++ toString cid
          let st : ConsState := ⟨some u, some cid, some g⟩
          (st, set_user_status db1 u.id true now,
            [.groupAdd g, .acceptConn] ++ broadcast_status st "user.online" u.id none now)

/-- Embedding of `ChatConsumer.disconnect` (`chat/consumers.py`
lines 63-74): discard the group binding when one exists, and when an
authenticated user is attached, write presence offline and broadcast
`user.offline` (which itself is a no-op without a group binding). -/
def disconnect (st : ConsState) (db : Db) (now : Int) : Db × List Effect :=
  let discardEffs : List Effect :=
    match st.group_name with
    | some g => [.groupDiscard g]
    | none => []
  match st.user with
  | none => (db, discardEffs)
  | some u =>
    if u.is_authenticated then
      (set_user_status db u.id false now,
        discardEffs ++ broadcast_status st "user.offline" u.id none now)
    else (db, discardEffs)

/-- Embedding of `ChatConsumer.create_message` (`chat/consumers.py`
lines 211-229): fetch the bound chat, insert a `Message` row with
`message_type` `"text"` when the text is truthy (non-empty) and `"file"`
otherwise, status `"sent"`, then point the chat's `last_message` at it.
The `except` branch (chat missing or database error) returns `none`. -/
def create_message (b : Bound) (db : Db) (text : String) (attachment : Option String)
    (now : Int) : Db × Option MessageRec :=
  match find_chat db b.chat_id with
  | none => (db, none)
  | some _ =>
    let msg : MessageRec :=
      { id := db.next_id, chat := b.chat_id, sender := b.user.id
        message_type := if text ≠ "" then "text" else "file"
        content := text, attachment := attachment, status := "sent"
        is_deleted := false, read_by := [], read_at := none
        delivered_at := none, created_at := now }
    ({ db with
        messages := db.messages ++ [msg]
        chats := db.chats.map (fun c =>
          if c.id = b.chat_id then { c with last_message := some msg.id } else c)
        next_id := db.next_id + 1 },
      some msg)

/-- Embedding of `ChatConsumer.build_message_payload`
(`chat/consumers.py` lines 269-281). -/
def build_message_payload (b : Bound) (m : MessageRec) : Payload :=
  .messageReceive b.chat_id m.id b.user.username b.user.id
    m.content m.message_type m.status m.created_at

/-- Embedding of `ChatConsumer.handle_message_send` (`chat/consumers.py`
lines 109-123): create the message; on failure send an error to the
caller, otherwise publish the `message.receive` payload to the group. -/
def handle_message_send (b : Bound) (db : Db) (text : String)
    (attachment : Option String) (now : Int) : Db × List Effect :=
  match create_message b db text attachment now with
  | (db1, none) => (db1, [.sendJson (.errorMsg "Message could not be sent.")])
  | (db1, some m) => (db1, [.groupSend b.group_name (build_message_payload b m)])

/-- Embedding of `ChatConsumer.mark_message_read` (`chat/consumers.py`
lines 231-244): fetch the message by id (from the whole table), call
`mark_as_read`, and return the read-receipt fields; on `DoesNotExist`
return `none` — with no logging in that branch. -/
def mark_message_read (b : Bound) (db : Db) (mid : MsgId) (now : Int) :
    Db × Option (MsgId × UserId × String × Int) :=
  match find_message db mid with
  | none => (db, none)
  | some m =>
    ({ db with
        messages := db.messages.map (fun x =>
          if x.id = mid then m.mark_as_read b.user.id now else x) },
      some (m.id, b.user.id, b.user.username, now))

/-- Embedding of `ChatConsumer.handle_message_read` (`chat/consumers.py`
lines 125-138): publish a `message.read` payload only when
`mark_message_read` returned read data. -/
def handle_message_read (b : Bound) (db : Db) (mid : MsgId) (now : Int) :
    Db × List Effect :=
  match mark_message_read b db mid now with
  | (db1, none) => (db1, [])
  | (db1, some (msgid, rid, runame, rat)) =>
    (db1, [.groupSend b.group_name (.messageRead b.chat_id msgid rid runame rat)])

/-- Outcome of one event handler: the database state and effects it
produced, plus the exception (message text) if one escaped it. -/
structure HandlerResult where
  db : Db
  effects : List Effect
  exn : Option String
deriving Repr, DecidableEq

/-- The event-type tags `receive_json` dispatches on. -/
def knownTags : List String :=
  ["message.send", "user.typing", "user.stop_typing", "message.read", "user.status"]

/-- Embedding of `ChatConsumer.receive_json` (`chat/consumers.py`
lines 79-104): an `if`/`elif` chain on `content.get("type")` with no
`else` arm, the whole chain wrapped in `try`/`except` which logs the
exception and sends a generic error payload to the caller.  The five
handlers are abstracted as `run`, keyed by the matched tag, so the
theorem about the dispatch boundary covers every handler behaviour. -/
def receive_json (db : Db) (event_type : Option String)
    (run : String → HandlerResult) : Db × List Effect :=
  let dispatch (tag : String) : Db × List Effect :=
    let r := run tag
    match r.exn with
    | none => (r.db, r.effects)
    | some e =>
      (r.db, r.effects
        ++ [.logError ("receive_json failed: " ++ e),
            .sendJson (.errorMsg "Internal error while processing your request.")])
  if event_type = some "message.send" then dispatch "message.send"
  else if event_type = some "user.typing" then dispatch "user.typing"
  else if event_type = some "user.stop_typing" then dispatch "user.stop_typing"
  else if event_type = some "message.read" then dispatch "message.read"
  else if event_type = some "user.status" then dispatch "user.status"
  else (db, [])

/-!
## Concurrent executions of `get_or_create_private_chat`

Two racing database transactions, each running the body of
`get_or_create_private_chat` (`chat/consumers.py` lines 187-209), under
read-committed semantics: a transaction's `SELECT ... FOR UPDATE` sees
only committed rows and takes row locks on exactly the rows it matched,
blocking while another transaction holds a lock on one of those rows;
inserts become visible to the other transaction only at commit.  Each
transaction is two atomic steps: the locking lookup (lines 192-197), and
the return-or-create followed by commit (lines 198-206).
-/

/-- The committed `private` chats having membership rows for both users. -/
def matchingChats (db : Db) (u1 u2 : UserId) : List ChatRec :=
  db.chats.filter (fun c =>
    c.chat_type = "private"
      ∧ db.participants.any (fun p => p.chat = c.id ∧ p.user = u1)
      ∧ db.participants.any (fun p => p.chat = c.id ∧ p.user = u2))

/-- Progress of one transaction through the lookup-or-create sequence. -/
inductive TxnPhase where
  | ready
  | selected (found : Option ChatId)
  | committed (result : Option ChatId)
deriving Repr, DecidableEq

/-- One in-flight call of `get_or_create_private_chat(u1, u2)`. -/
structure Txn where
  u1 : UserId
  u2 : UserId
  phase : TxnPhase
deriving Repr, DecidableEq

/-- Committed database, the two racing transactions, and the row locks
currently held (chat row id paired with the owning transaction). -/
structure RaceState where
  db : Db
  txn0 : Txn
  txn1 : Txn
  locks : List (ChatId × Bool)
deriving Repr, DecidableEq

/-- The transaction selected by an index. -/
def RaceState.txn (s : RaceState) (i : Bool) : Txn :=
  if i then s.txn1 else s.txn0

/-- Replace the transaction selected by an index. -/
def RaceState.setTxn (s : RaceState) (i : Bool) (t : Txn) : RaceState :=
  if i then { s with txn1 := t } else { s with txn0 := t }

/-- One atomic step of transaction `i`; `none` when the transaction is
blocked on a row lock or already committed.  The locking lookup locks the
matched committed rows (none, when the lookup matches nothing); the
second step returns the found id or inserts the new chat with its two
membership rows and commits, releasing the locks. -/
def raceStep (s : RaceState) (i : Bool) : Option RaceState :=
  let t := s.txn i
  match t.phase with
  | .ready =>
    let matched := matchingChats s.db t.u1 t.u2
    if matched.any (fun c => s.locks.any (fun l => l.1 = c.id ∧ l.2 ≠ i)) then
      none
    else
      some { (s.setTxn i { t with phase := .selected ((matched.head?).map ChatRec.id) }) with
              locks := s.locks ++ matched.map (fun c => (c.id, i)) }
  | .selected found =>
    let released := s.locks.filter (fun l => l.2 ≠ i)
    match found with
    | some cid =>
      some { (s.setTxn i { t with phase := .committed (some cid) }) with
              locks := released }
    | none =>
      let c : ChatRec := { id := s.db.next_id, chat_type := "private", last_message := none }
      some { (s.setTxn i { t with phase := .committed (some c.id) }) with
              locks := released
              db := { s.db with
                      chats := s.db.chats ++ [c]
                      participants := s.db.participants ++ [⟨c.id, t.u1⟩, ⟨c.id, t.u2⟩]
                      next_id := s.db.next_id + 1 } }
  | .committed _ => none

/-- Run a schedule (list of transaction indices); `none` if any scheduled
step is blocked or invalid. -/
def raceRun (s : RaceState) (sched : List Bool) : Option RaceState :=
  sched.foldlM raceStep s

/-- Initial race: empty database, transaction 0 running
`get_or_create_private_chat(A, B)` and transaction 1 running
`get_or_create_private_chat(B, A)` for the pair `A = 3`, `B = 4`. -/
def raceInit : RaceState :=
  { db := { chats := [], participants := [], messages := [], users := [], next_id := 100 }
    txn0 := { u1 := 3, u2 := 4, phase := .ready }
    txn1 := { u1 := 4, u2 := 3, phase := .ready }
    locks := [] }

/-!
## Concrete fixtures used by witnesses and counterexamples
-/

/-- A concrete authenticated user. -/
def uAlice : UserRec :=
  { id := 1, username := "alice", email := "alice@example.com"
    is_authenticated := true, is_online := false, last_seen := none
    status_message := "" }

/-- A second concrete authenticated user. -/
def uBob : UserRec :=
  { id := 2, username := "bob", email := "bob@example.com"
    is_authenticated := true, is_online := false, last_seen := none
    status_message := "" }

/-- A concrete unauthenticated user (anonymous scope user). -/
def uAnon : UserRec :=
  { id := 9, username := "anon", email := ""
    is_authenticated := false, is_online := false, last_seen := none
    status_message := "" }

/-- The private chat between the two fixture users. -/
def chat1 : ChatRec := { id := 1, chat_type := "private", last_message := none }

/-- A second private chat, to which user 1 does not belong. -/
def chat2 : ChatRec := { id := 2, chat_type := "private", last_message := none }

/-- Database with the single chat `chat1` and its two members. -/
def dbPair : Db :=
  { chats := [chat1], participants := [⟨1, 1⟩, ⟨1, 2⟩]
    messages := [], users := [uAlice, uBob], next_id := 5 }

/-- An empty database. -/
def dbEmpty : Db :=
  { chats := [], participants := [], messages := [], users := [], next_id := 0 }

/-- Alice's consumer, bound to `chat1`. -/
def bAlice : Bound := { user := uAlice, chat_id := 1, group_name := "chat_1" }

/-- A message living in `chat2` (not Alice's bound conversation). -/
def msgInChat2 : MessageRec :=
  { id := 5, chat := 2, sender := 2, message_type := "text", content := "yo"
    attachment := none, status := "sent", is_deleted := false
    read_by := [], read_at := none, delivered_at := none, created_at := 10 }

/-- Database with both chats and the message in `chat2`. -/
def dbTwoChats : Db :=
  { chats := [chat1, chat2], participants := [⟨1, 1⟩, ⟨1, 2⟩, ⟨2, 2⟩, ⟨2, 3⟩]
    messages := [msgInChat2], users := [uAlice, uBob], next_id := 6 }

/-- A fixed last-seen instant: 2:05 PM on March 8, 2024 (epoch 0 of the test). -/
def dtBase : PyDateTime :=
  { epoch := 0, year := 2024, month := 3, day := 8, hour := 14, minute := 5 }

/-- The current instant, `e` seconds after `dtBase`. -/
def dtAt (e : Int) : PyDateTime := { dtBase with epoch := e }

/-- A concrete model of `uuid.UUID` parsing for witnesses: only the
string "7" is a valid identifier. -/
def uuidParseFix : String → Option UserId :=
  fun s => if s = "7" then some 7 else none

/-- A concrete handler environment whose handlers all raise. -/
def runBoom : String → HandlerResult :=
  fun _ => { db := dbPair, effects := [], exn := some "boom" }

/-- Whether an effect is a group broadcast. -/
def isBroadcast : Effect → Bool
  | .groupSend _ _ => true
  | _ => false

/-!
## Claim C3 — idempotence of `mark_as_read`
-/

/-- C3 counterexample: marking `msgSent` read by user 7 at time 10 and
again at time 20 does not leave the message in the state one application
produces: the second call overwrites the single per-message `read_at`
field, so the claim that a second `mark_as_read` by the same reader
leaves the message unchanged is false. -/
theorem c3_counterexample :
    ¬ ((msgSent.mark_as_read 7 10).mark_as_read 7 20 = msgSent.mark_as_read 7 10) := by
  decide

/-- C3 (amended): `mark_as_read` is idempotent on the read-by set and the
status — after one or two applications the reader appears in the read-by
set exactly once and the status is `"read"` — but the message's single
`read_at` timestamp is overwritten by every application (it is
per-message, not per-reader). -/
theorem c3_mark_as_read_set_idempotent (m : MessageRec) (u : UserId) (t1 t2 : Int)
    (h : m.read_by.Nodup) :
    ((m.mark_as_read u t1).mark_as_read u t2).read_by = (m.mark_as_read u t1).read_by
    ∧ (m.mark_as_read u t1).status = "read"
    ∧ ((m.mark_as_read u t1).mark_as_read u t2).status = "read"
    ∧ (m.mark_as_read u t1).read_by.count u = 1
    ∧ ((m.mark_as_read u t1).mark_as_read u t2).read_by.count u = 1
    ∧ (m.mark_as_read u t1).read_at = some t1
    ∧ ((m.mark_as_read u t1).mark_as_read u t2).read_at = some t2 := by
  by_cases hu : u ∈ m.read_by
  · have hc : m.read_by.count u = 1 := List.count_eq_one_of_mem h hu
    simp [MessageRec.mark_as_read, hu, hc]
  · have hc : m.read_by.count u = 0 := List.count_eq_zero.mpr hu
    have hu2 : u ∈ m.read_by ++ [u] := by simp
    simp [MessageRec.mark_as_read, hu, hu2, hc]

/-- C3 witness: the amended statement evaluated on the concrete fixture. -/
theorem c3_witness :
    ((msgSent.mark_as_read 7 10).mark_as_read 7 20).read_by
        = (msgSent.mark_as_read 7 10).read_by
    ∧ (msgSent.mark_as_read 7 10).status = "read"
    ∧ ((msgSent.mark_as_read 7 10).mark_as_read 7 20).status = "read"
    ∧ (msgSent.mark_as_read 7 10).read_by.count 7 = 1
    ∧ ((msgSent.mark_as_read 7 10).mark_as_read 7 20).read_by.count 7 = 1
    ∧ (msgSent.mark_as_read 7 10).read_at = some 10
    ∧ ((msgSent.mark_as_read 7 10).mark_as_read 7 20).read_at = some 20 :=
  c3_mark_as_read_set_idempotent msgSent 7 10 20 (by decide)

/-!
## Claim C4 — forward-only status transitions
-/

/-- C4 counterexample: from a freshly sent message, the operation
sequence `mark_as_read` then `mark_as_delivered` is reachable and moves
the status from `"read"` back to `"delivered"`, so the claim that no
sequence of these operations ever moves a status backward is false. -/
theorem c4_counterexample :
    ¬ ((msgSent.runOps [.read 7 0]).status = "read" →
        (msgSent.runOps [.read 7 0, .deliver 1]).status ≠ "delivered") := by
  decide

/-- C4 (amended): `mark_as_delivered` and `mark_as_read` write the status
unconditionally, so after any operation sequence the status is that of
the last operation regardless of the history — in particular a
`mark_as_delivered` following a `mark_as_read` moves the status backward
from `"read"` to `"delivered"`. -/
theorem c4_status_is_last_write (m : MessageRec) (ops : List StatusOp) (op : StatusOp) :
    (m.runOps (ops ++ [op])).status = op.targetStatus := by
  unfold MessageRec.runOps
  rw [List.foldl_append]
  cases op <;> rfl

/-!
## Claims C8, C9 — `formatted_last_seen`
-/

theorem PyTimedelta.total_ofSeconds (x : Int) : (PyTimedelta.ofSeconds x).total = x := by
  unfold PyTimedelta.ofSeconds PyTimedelta.total
  ring

theorem PyTimedelta.lt_ofSeconds (x y : Int) :
    (PyTimedelta.ofSeconds x).lt (PyTimedelta.ofSeconds y) = decide (x < y) := by
  unfold PyTimedelta.lt
  rw [PyTimedelta.total_ofSeconds, PyTimedelta.total_ofSeconds]

theorem PyTimedelta.seconds_ofSeconds_small {x : Int} (h0 : 0 ≤ x) (h1 : x < 86400) :
    (PyTimedelta.ofSeconds x).seconds = x := by
  unfold PyTimedelta.ofSeconds
  have hz : Int.fdiv x 86400 = 0 := by
    rw [Int.fdiv_eq_ediv x (by norm_num)]
    exact Int.ediv_eq_zero_of_lt h0 h1
  simp [hz]

/-- C8: `formatted_last_seen` is a pure function of the last-seen and
current timestamps with exactly the claimed breakpoints on the elapsed
delta: under 1 minute "online just now"; under 1 hour the whole elapsed
minutes; under 24 hours the "today at" clock form; under 48 hours the
"yesterday at" clock form; otherwise the full date form. -/
theorem c8_formatted_last_seen_breakpoints (ls now : PyDateTime) :
    (0 ≤ now.epoch - ls.epoch → now.epoch - ls.epoch < 60 →
        formatted_last_seen (some ls) now = "online just now")
    ∧ (60 ≤ now.epoch - ls.epoch → now.epoch - ls.epoch < 3600 →
        formatted_last_seen (some ls) now =
          "last seen " ++ toString ((now.epoch - ls.epoch).toNat / 60) ++ " minutes ago")
    ∧ (3600 ≤ now.epoch - ls.epoch → now.epoch - ls.epoch < 86400 →
        formatted_last_seen (some ls) now = "last seen today at " ++ strftimeClock ls)
    ∧ (86400 ≤ now.epoch - ls.epoch → now.epoch - ls.epoch < 172800 →
        formatted_last_seen (some ls) now = "last seen yesterday at " ++ strftimeClock ls)
    ∧ (172800 ≤ now.epoch - ls.epoch →
        formatted_last_seen (some ls) now = "last seen on " ++ strftimeDate ls) := by
  have hsub : now.sub ls = PyTimedelta.ofSeconds (now.epoch - ls.epoch) := rfl
  refine ⟨?_, ?_, ?_, ?_, ?_⟩ <;> intro h1 <;>
    simp only [formatted_last_seen, hsub, PyTimedelta.lt_ofSeconds,
      decide_eq_true_eq]
  · intro h2
    rw [if_pos h2]
  · intro h2
    rw [if_neg (by omega), if_pos h2,
      PyTimedelta.seconds_ofSeconds_small (by omega) (by omega)]
  · intro h2
    rw [if_neg (by omega), if_neg (by omega), if_pos h2]
  · intro h2
    rw [if_neg (by omega), if_neg (by omega), if_neg (by omega), if_pos h2]
  · rw [if_neg (by omega), if_neg (by omega), if_neg (by omega), if_neg (by omega)]

/-- C8 witness: the breakpoint characterization evaluated at elapsed
times of 30 seconds, 10 minutes, 3 hours, 26 hours and 5 days. -/
theorem c8_witness :
    formatted_last_seen (some dtBase) (dtAt 30) = "online just now"
    ∧ formatted_last_seen (some dtBase) (dtAt 600) = "last seen 10 minutes ago"
    ∧ formatted_last_seen (some dtBase) (dtAt 10800) = "last seen today at 02:05 PM"
    ∧ formatted_last_seen (some dtBase) (dtAt 93600) = "last seen yesterday at 02:05 PM"
    ∧ formatted_last_seen (some dtBase) (dtAt 432000)
        = "last seen on Mar 08, 2024 at 02:05 PM" := by
  refine ⟨?_, ?_, ?_, ?_, ?_⟩
  · have h := (c8_formatted_last_seen_breakpoints dtBase (dtAt 30)).1
      (by decide) (by decide)
    rw [h]
  · have h := (c8_formatted_last_seen_breakpoints dtBase (dtAt 600)).2.1
      (by decide) (by decide)
    rw [h]
    decide
  · have h := (c8_formatted_last_seen_breakpoints dtBase (dtAt 10800)).2.2.1
      (by decide) (by decide)
    rw [h]
    decide
  · have h := (c8_formatted_last_seen_breakpoints dtBase (dtAt 93600)).2.2.2.1
      (by decide) (by decide)
    rw [h]
    decide
  · have h := (c8_formatted_last_seen_breakpoints dtBase (dtAt 432000)).2.2.2.2
      (by decide)
    rw [h]
    decide

/-- C9: when the last-seen timestamp was never set, `formatted_last_seen`
returns "last seen recently" for every current time — an output outside
the five breakpoint cases. -/
theorem c9_null_last_seen (now : PyDateTime) :
    formatted_last_seen none now = "last seen recently" := rfl

/-!
## Claim C10 — disconnect of a never-accepted connection
-/

/-- C10: disconnecting a consumer whose setup was refused before
acceptance (no user attached, no group binding) is a total no-op: the
database is untouched (no presence write) and no effect — no group
discard, no offline broadcast — is produced. -/
theorem c10_disconnect_unbound_noop (st : ConsState) (db : Db) (now : Int)
    (hu : st.user = none) (hg : st.group_name = none) :
    disconnect st db now = (db, []) := by
  simp [disconnect, hu, hg]

/-- C10 witness: the no-op disconnect evaluated on a concrete state. -/
theorem c10_witness : disconnect ⟨none, none, none⟩ dbPair 42 = (dbPair, []) :=
  c10_disconnect_unbound_noop ⟨none, none, none⟩ dbPair 42 rfl rfl

/-!
## Claim C7 — connection setup fails closed with distinct close codes
-/

/-- C7: connection setup fails closed with a distinct close code per
failure kind — missing or unauthenticated identity closes with 4001, an
unparseable target peer identifier closes with 4002, and failure of the
get-or-create of the private conversation closes with 4003 — and in
every case in which a close code is emitted the connection is never
accepted, no group binding is created, and the database is untouched. -/
theorem c7_connect_close_codes (db : Db) (scope_user : Option UserRec)
    (target : Option String) (uuid_parse : String → Option UserId)
    (fault : Bool) (now : Int) :
    ((scope_user = none ∨ ∃ u, scope_user = some u ∧ u.is_authenticated = false) →
        connect db scope_user target uuid_parse fault now
          = (⟨none, none, none⟩, db, [.closeConn 4001]))
    ∧ (∀ u, scope_user = some u → u.is_authenticated = true →
        target.bind uuid_parse = none →
        connect db scope_user target uuid_parse fault now
          = (⟨some u, none, none⟩, db, [.closeConn 4002]))
    ∧ (∀ u tid, scope_user = some u → u.is_authenticated = true →
        target.bind uuid_parse = some tid → fault = true →
        connect db scope_user target uuid_parse fault now
          = (⟨some u, none, none⟩, db, [.closeConn 4003]))
    ∧ (∀ code, Effect.closeConn code ∈ (connect db scope_user target uuid_parse fault now).2.2 →
        Effect.acceptConn ∉ (connect db scope_user target uuid_parse fault now).2.2
        ∧ (∀ g, Effect.groupAdd g ∉ (connect db scope_user target uuid_parse fault now).2.2)
        ∧ (connect db scope_user target uuid_parse fault now).1.group_name = none
        ∧ (connect db scope_user target uuid_parse fault now).2.1 = db) := by
  refine ⟨?_, ?_, ?_, ?_⟩
  · rintro (rfl | ⟨u, rfl, hu⟩)
    · simp [connect]
    · simp [connect, hu]
  · rintro u rfl hu ht
    simp [connect, hu, ht]
  · rintro u tid rfl hu ht rfl
    simp [connect, hu, ht, get_or_create_private_chat]
  · intro code
    cases scope_user with
    | none => simp [connect]
    | some u =>
      cases hau : u.is_authenticated with
      | false => simp [connect, hau]
      | true =>
        cases ht : target.bind uuid_parse with
        | none => simp [connect, hau, ht]
        | some tid =>
          cases hf : fault with
          | true => simp [connect, hau, ht, get_or_create_private_chat]
          | false =>
            cases hfc : find_private_chat db u.id tid with
            | some c =>
              simp [connect, hau, ht, get_or_create_private_chat, hfc, broadcast_status]
            | none =>
              simp [connect, hau, ht, get_or_create_private_chat, hfc, broadcast_status]

/-- C7 witness: the three close codes evaluated on concrete connection
attempts (no scope user; an unauthenticated user; a bad peer id; a
database fault during chat creation). -/
theorem c7_witness :
    connect dbPair none none uuidParseFix false 0
      = (⟨none, none, none⟩, dbPair, [.closeConn 4001])
    ∧ connect dbPair (some uAnon) (some "7") uuidParseFix false 0
      = (⟨none, none, none⟩, dbPair, [.closeConn 4001])
    ∧ connect dbPair (some uAlice) (some "nope") uuidParseFix false 0
      = (⟨some uAlice, none, none⟩, dbPair, [.closeConn 4002])
    ∧ connect dbPair (some uAlice) (some "7") uuidParseFix true 0
      = (⟨some uAlice, none, none⟩, dbPair, [.closeConn 4003]) :=
  ⟨(c7_connect_close_codes dbPair none none uuidParseFix false 0).1 (Or.inl rfl),
   (c7_connect_close_codes dbPair (some uAnon) (some "7") uuidParseFix false 0).1
     (Or.inr ⟨uAnon, rfl, rfl⟩),
   (c7_connect_close_codes dbPair (some uAlice) (some "nope") uuidParseFix false 0).2.1
     uAlice rfl rfl (by decide),
   (c7_connect_close_codes dbPair (some uAlice) (some "7") uuidParseFix true 0).2.2.1
     uAlice 7 rfl rfl (by decide) rfl⟩

/-!
## Claim C6 — single dispatch point, unknown tags ignored, exceptions caught
-/

/-- C6: inbound dispatch is keyed by the event-type tag — an event whose
tag is not one of the five known tags is ignored entirely (no database
change, no effect of any kind) — and an exception escaping any handler is
caught at the dispatch boundary, which appends exactly one log entry and
one generic error event to the caller and never adds a close: any close
in the result can only have come from the handler itself. -/
theorem c6_dispatch_boundary (db : Db) (run : String → HandlerResult) :
    (∀ tagOpt : Option String, (∀ t, tagOpt = some t → t ∉ knownTags) →
        receive_json db tagOpt run = (db, []))
    ∧ (∀ t, t ∈ knownTags → ∀ e, (run t).exn = some e →
        receive_json db (some t) run
          = ((run t).db, (run t).effects
              ++ [.logError ("receive_json failed: " ++ e),
                  .sendJson (.errorMsg "Internal error while processing your request.")])
        ∧ ∀ code, Effect.closeConn code ∈ (receive_json db (some t) run).2 →
            Effect.closeConn code ∈ (run t).effects) := by
  constructor
  · intro tagOpt h
    cases tagOpt with
    | none => simp [receive_json]
    | some t =>
      have ht := h t rfl
      simp only [knownTags, List.mem_cons, List.not_mem_nil, or_false, not_or] at ht
      obtain ⟨h1, h2, h3, h4, h5⟩ := ht
      simp [receive_json, h1, h2, h3, h4, h5]
  · intro t ht e he
    have key : receive_json db (some t) run
        = ((run t).db, (run t).effects
            ++ [.logError ("receive_json failed: " ++ e),
                .sendJson (.errorMsg "Internal error while processing your request.")]) := by
      simp only [knownTags, List.mem_cons, List.not_mem_nil, or_false] at ht
      rcases ht with rfl | rfl | rfl | rfl | rfl <;> simp [receive_json, he]
    refine ⟨key, ?_⟩
    intro code hmem
    rw [key] at hmem
    simp only [List.mem_append, List.mem_cons, List.not_mem_nil, or_false] at hmem
    rcases hmem with hmem | hmem | hmem
    · exact hmem
    · exact absurd hmem (by simp)
    · exact absurd hmem (by simp)

/-- C6 witness: the dispatch boundary evaluated on a concrete unknown
tag and on a concrete handler exception. -/
theorem c6_witness :
    receive_json dbPair (some "mystery.tag") runBoom = (dbPair, [])
    ∧ receive_json dbPair (some "message.send") runBoom
      = (dbPair,
          [.logError ("receive_json failed: " ++ "boom"),
           .sendJson (.errorMsg "Internal error while processing your request.")]) :=
  ⟨(c6_dispatch_boundary dbPair runBoom).1 (some "mystery.tag")
      (by intro t ht; injection ht with h; subst h; decide),
   ((c6_dispatch_boundary dbPair runBoom).2 "message.send" (by decide) "boom" rfl).1⟩

/-!
## Claim C2 — empty `message.send` events
-/

/-- C2 counterexample: a `message.send` with empty text and no
attachment, handled on a database containing the bound chat, does
persist a `Message` row and does broadcast — refuting the claim that it
is rejected with a validation error, persists nothing and broadcasts
nothing. -/
theorem c2_counterexample :
    ¬ ((handle_message_send bAlice dbPair "" none 50).1.messages = dbPair.messages
        ∧ (handle_message_send bAlice dbPair "" none 50).2.countP isBroadcast = 0) := by
  decide

/-- C2 (amended): `handle_message_send` performs no validation — with
empty text and no attachment it persists a `Message` row with empty
content, kind `"file"` and status `"sent"`, repoints the chat's
`last_message` at the new row, and makes exactly one broadcast; no error
is sent to the caller. -/
theorem c2_empty_send_is_persisted (b : Bound) (db : Db) (now : Int)
    (c : ChatRec) (hc : find_chat db b.chat_id = some c) :
    (handle_message_send b db "" none now).1.messages
      = db.messages
          ++ [{ id := db.next_id, chat := b.chat_id, sender := b.user.id
                message_type := "file", content := "", attachment := none
                status := "sent", is_deleted := false, read_by := []
                read_at := none, delivered_at := none, created_at := now }]
    ∧ (handle_message_send b db "" none now).2
      = [.groupSend b.group_name
          (.messageReceive b.chat_id db.next_id b.user.username b.user.id
            "" "file" "sent" now)]
    ∧ find_chat (handle_message_send b db "" none now).1 b.chat_id
      = some { c with last_message := some db.next_id } := by
  have hid : c.id = b.chat_id := by
    have h := List.find?_some hc
    simpa using h
  refine ⟨?_, ?_, ?_⟩
  · simp [handle_message_send, create_message, hc]
  · simp [handle_message_send, create_message, hc, build_message_payload]
  · have hfind : db.chats.find? (fun x => x.id = b.chat_id) = some c := hc
    simp only [handle_message_send, create_message, find_chat, hfind]
    rw [List.find?_map]
    have hpred :
        ((fun x : ChatRec => decide (x.id = b.chat_id)) ∘
            (fun x : ChatRec =>
              if x.id = b.chat_id then { x with last_message := some db.next_id } else x))
          = fun x : ChatRec => decide (x.id = b.chat_id) := by
      funext x
      by_cases hx : x.id = b.chat_id <;> simp [hx]
    rw [hpred, hfind]
    simp [hid]

/-- C2 witness: the amended statement evaluated on the concrete fixture
database. -/
theorem c2_witness :
    (handle_message_send bAlice dbPair "" none 50).1.messages
      = dbPair.messages
          ++ [{ id := 5, chat := 1, sender := 1, message_type := "file", content := ""
                attachment := none, status := "sent", is_deleted := false, read_by := []
                read_at := none, delivered_at := none, created_at := 50 }]
    ∧ (handle_message_send bAlice dbPair "" none 50).2
      = [.groupSend "chat_1" (.messageReceive 1 5 "alice" 1 "" "file" "sent" 50)]
    ∧ find_chat (handle_message_send bAlice dbPair "" none 50).1 1
      = some { chat1 with last_message := some 5 } :=
  c2_empty_send_is_persisted bAlice dbPair 50 chat1 (by decide)

/-!
## Claim C5 — `message.read` with no conversation-membership check
-/

/-- C5 counterexample: a `message.read` naming a message of a chat the
caller is not bound to (`msgInChat2` lives in chat 2, the caller is
bound to chat 1) is nevertheless persisted and published — refuting the
claim that persistence and publication happen only for messages of the
caller's bound conversation. -/
theorem c5_counterexample :
    (find_message dbTwoChats 5).map MessageRec.chat = some 2
    ∧ bAlice.chat_id = 1
    ∧ (handle_message_read bAlice dbTwoChats 5 60).2 ≠ []
    ∧ (handle_message_read bAlice dbTwoChats 5 60).1 ≠ dbTwoChats := by
  decide

/-- C5 (amended): `handle_message_read` persists the read receipt and
publishes a `message.read` event whenever the message id resolves to any
existing message — the bound conversation is never consulted, so this
holds also for messages of other conversations — and when the id does
not resolve it does nothing at all: no persistence, no publish, and also
no log entry (the `DoesNotExist` branch is silent). -/
theorem c5_read_receipt_no_membership_check (b : Bound) (db : Db) (mid : MsgId) (now : Int) :
    (find_message db mid = none → handle_message_read b db mid now = (db, []))
    ∧ (∀ m, find_message db mid = some m →
        (handle_message_read b db mid now).2
          = [.groupSend b.group_name
              (.messageRead b.chat_id m.id b.user.id b.user.username now)]
        ∧ (handle_message_read b db mid now).1.messages
          = db.messages.map (fun x =>
              if x.id = mid then m.mark_as_read b.user.id now else x)) := by
  constructor
  · intro h
    simp [handle_message_read, mark_message_read, h]
  · intro m h
    constructor
    · simp [handle_message_read, mark_message_read, h]
    · simp [handle_message_read, mark_message_read, h]

/-- C5 witness: the amended statement evaluated on the concrete fixture
database, for an unresolvable id and for the cross-conversation message. -/
theorem c5_witness :
    handle_message_read bAlice dbTwoChats 99 60 = (dbTwoChats, [])
    ∧ (handle_message_read bAlice dbTwoChats 5 60).2
      = [.groupSend "chat_1" (.messageRead 1 5 1 "alice" 60)]
    ∧ (handle_message_read bAlice dbTwoChats 5 60).1.messages
      = dbTwoChats.messages.map (fun x =>
          if x.id = 5 then msgInChat2.mark_as_read 1 60 else x) :=
  ⟨(c5_read_receipt_no_membership_check bAlice dbTwoChats 99 60).1 (by decide),
   ((c5_read_receipt_no_membership_check bAlice dbTwoChats 5 60).2
      msgInChat2 (by decide)).1,
   ((c5_read_receipt_no_membership_check bAlice dbTwoChats 5 60).2
      msgInChat2 (by decide)).2⟩

/-!
## Claim C1 — concurrent `get_or_create_private_chat`
-/

/-- C1: the interleaving in which both racing transactions execute the
`SELECT ... FOR UPDATE` lookup before either commits is admissible (the
lookup matches no rows on an empty database, so it takes no row locks
and neither transaction blocks), and it commits two distinct private
conversation rows for the unordered pair of users 3 and 4 — one per
transaction — so the row lock does not serialize first-contact creation
and the claimed uniqueness guarantee fails. -/
theorem c1_concurrent_create_duplicates :
    (raceRun raceInit [false, true, false, true]).map
        (fun s => ((matchingChats s.db 3 4).length, s.txn0.phase, s.txn1.phase))
      = some (2, .committed (some 100), .committed (some 101)) := by
  decide

end FreeAPIChat
